import Mathlib

/-!
Shallow embedding of the bonding-curve decoder, price derivation and
fetch-with-retry orchestrator of aurabot (src/main.py).

Bytes are modelled as natural numbers below 256 in a list; Python float
division in the price calculation is modelled as exact rational division,
following the real-valued division the specification describes; the retry
loop is modelled as a recursion over the remaining attempts, with each
attempt outcome supplied by an oracle function.
-/

set_option maxRecDepth 40000

namespace Aurabot

/-- Little-endian encoding of a natural number into the given number of
bytes, mirroring struct.pack of the unsigned 64-bit discriminator constant
at main.py line 42. -/
def natToLE : Nat → Nat → List Nat
  | 0, _ => []
  | n + 1, v => v % 256 :: natToLE n (v / 256)

/-- The 8-byte bonding curve account discriminator, main.py line 42. -/
def BONDING_CURVE_DISCRIMINATOR : List Nat := natToLE 8 6966180631402821399

/-- Read an unsigned little-endian integer of the given byte width from the
front of a byte list, mirroring the sequential construct Int64ul and Flag
field reads of the BondingCurveState structs. Returns the value and the
remaining bytes, or none when the input is too short, which construct
reports as a stream error. -/
def readLE : Nat → List Nat → Option (Nat × List Nat)
  | 0, l => some (0, l)
  | _ + 1, [] => none
  | n + 1, b :: l => (readLE n l).map (fun p => (b + 256 * p.1, p.2))

/-- Read a fixed number of raw bytes, mirroring the construct Bytes(32)
creator field of layout V2. -/
def readBytes (n : Nat) (l : List Nat) : Option (List Nat × List Nat) :=
  if n ≤ l.length then some (l.take n, l.drop n) else none

/-- The decoded bonding curve account state, with the fields of the
construct structs at main.py lines 51 to 67. The creator field is present
only for layout V2; its 32 raw bytes are kept as bytes, since the pubkey
reinterpretation is a structural relabeling that cannot fail. -/
structure BondingCurveState where
  virtual_token_reserves : Nat
  virtual_sol_reserves : Nat
  real_token_reserves : Nat
  real_sol_reserves : Nat
  token_total_supply : Nat
  complete : Bool
  creator : Option (List Nat)
deriving DecidableEq

/-- Layout V1, main.py lines 51 to 58: five unsigned 64-bit little-endian
integers followed by a one-byte flag; trailing bytes are ignored, as
construct parse ignores them. -/
def parseV1 (l : List Nat) : Option BondingCurveState := do
  let (virtual_token_reserves, l) ← readLE 8 l
  let (virtual_sol_reserves, l) ← readLE 8 l
  let (real_token_reserves, l) ← readLE 8 l
  let (real_sol_reserves, l) ← readLE 8 l
  let (token_total_supply, l) ← readLE 8 l
  let (complete, _) ← readLE 1 l
  pure ⟨virtual_token_reserves, virtual_sol_reserves, real_token_reserves,
        real_sol_reserves, token_total_supply, complete != 0, none⟩

/-- Layout V2, main.py lines 59 to 67: the V1 fields followed by a 32-byte
creator field. -/
def parseV2 (l : List Nat) : Option BondingCurveState := do
  let (virtual_token_reserves, l) ← readLE 8 l
  let (virtual_sol_reserves, l) ← readLE 8 l
  let (real_token_reserves, l) ← readLE 8 l
  let (real_sol_reserves, l) ← readLE 8 l
  let (token_total_supply, l) ← readLE 8 l
  let (complete, l) ← readLE 1 l
  let (creator, _) ← readBytes 32 l
  pure ⟨virtual_token_reserves, virtual_sol_reserves, real_token_reserves,
        real_sol_reserves, token_total_supply, complete != 0, some creator⟩

inductive Layout
  | v1
  | v2
deriving DecidableEq

/-- The length-based layout selection of main.py line 75: layout V2 is used
exactly when the full payload is longer than 150 bytes. -/
def selectLayout (data : List Nat) : Layout :=
  if 150 < data.length then Layout.v2 else Layout.v1

def parseWith : Layout → List Nat → Option BondingCurveState
  | Layout.v1, l => parseV1 l
  | Layout.v2, l => parseV2 l

/-- The decode errors: a discriminator mismatch raises the ValueError of
main.py line 72, and insufficient bytes for the selected layout raise a
construct stream error. -/
inductive DecodeError
  | invalidDiscriminator
  | truncatedPayload
deriving DecidableEq

/-- The BondingCurveState constructor, main.py lines 69 to 78: check the
8-byte discriminator prefix, select a layout by total payload length, and
parse the remainder after the discriminator. -/
def decode (data : List Nat) : Except DecodeError BondingCurveState :=
  if data.take 8 ≠ BONDING_CURVE_DISCRIMINATOR then
    Except.error DecodeError.invalidDiscriminator
  else
    match parseWith (selectLayout data) (data.drop 8) with
    | some s => Except.ok s
    | none => Except.error DecodeError.truncatedPayload

/-- The derived price and reserve snapshot logged at main.py lines 137
to 141. -/
structure PriceSnapshot where
  initial_price : ℚ
  token_reserves : Nat
  sol_reserves : Nat
deriving DecidableEq

/-- The price and reserve derivation of main.py lines 129 to 135.
TOKEN_DECIMALS and LAMPORTS_PER_SOL are constants imported from an external
package, so they are taken as parameters; Python float division is modelled
as exact rational division. -/
def derive (TOKEN_DECIMALS LAMPORTS_PER_SOL : Nat) (s : BondingCurveState) :
    PriceSnapshot :=
  if 0 < s.virtual_token_reserves then
    { initial_price := (s.virtual_sol_reserves : ℚ) / (s.virtual_token_reserves : ℚ)
        * (10 : ℚ) ^ TOKEN_DECIMALS / (LAMPORTS_PER_SOL : ℚ)
      token_reserves := s.virtual_token_reserves
      sol_reserves := s.virtual_sol_reserves }
  else
    { initial_price := 0
      token_reserves := s.virtual_token_reserves
      sol_reserves := s.virtual_sol_reserves }

/-- Retry parameters, main.py lines 109 and 110; the 1.5 second delay is a
rational number of seconds. -/
def max_retries : Nat := 5

def retry_delay : ℚ := 3 / 2

/-- Matching a character-list pattern at the front of a character list. -/
def matchAt : List Char → List Char → Bool
  | [], _ => true
  | _ :: _, [] => false
  | a :: as, b :: bs => a == b && matchAt as bs

/-- The Python substring test, needle in hay. -/
def strContains (hay needle : String) : Bool :=
  (List.range (hay.toList.length + 1)).any fun i =>
    matchAt needle.toList (hay.toList.drop i)

/-- The classification of a caught ValueError at main.py line 150: the
error is retried only when its message contains one of the two
substrings. -/
def isRetryable (error_str : String) : Bool :=
  strContains error_str "Account not found"
    || strContains error_str "Invalid bonding curve state"

/-- The outcome of one iteration of the fetch loop body, main.py lines 113
to 143: the body returns the derived snapshot, raises a ValueError with
some message, or raises an exception of another class, which the except
clause at line 145 does not catch. -/
inductive AttemptOutcome
  | success (s : PriceSnapshot)
  | valueError (msg : String)
  | otherError
deriving DecidableEq

/-- The result of the whole fetch loop: a returned snapshot, a propagated
ValueError, a propagated exception of another class, or the loop running
out of iterations without returning or raising, which cannot happen when
max_retries is positive. -/
inductive FetchResult
  | ok (s : PriceSnapshot)
  | errValue (msg : String)
  | errOther
  | fellThrough
deriving DecidableEq

/-- An execution trace of the fetch loop: how many times the loop body ran,
the sleeps performed between attempts, and the final result. -/
structure LoopTrace where
  attempts : Nat
  sleeps : List ℚ
  result : FetchResult
deriving DecidableEq

/-- The fetch loop of main.py lines 112 to 156, recursing over the
remaining iterations of range(max_retries). On a ValueError whose message
matches a retryable pattern while attempts remain, the body sleeps
retry_delay and continues; any other caught ValueError is re-raised; a
non-ValueError exception propagates; a success returns. -/
def loopStep (outcomes : Nat → AttemptOutcome) : Nat → Nat → LoopTrace
  | _, 0 => ⟨0, [], FetchResult.fellThrough⟩
  | attempt, remaining + 1 =>
    match outcomes attempt with
    | AttemptOutcome.success s => ⟨1, [], FetchResult.ok s⟩
    | AttemptOutcome.otherError => ⟨1, [], FetchResult.errOther⟩
    | AttemptOutcome.valueError msg =>
      if isRetryable msg = true ∧ attempt < max_retries - 1 then
        let t := loopStep outcomes (attempt + 1) remaining
        ⟨t.attempts + 1, retry_delay :: t.sleeps, t.result⟩
      else
        ⟨1, [], FetchResult.errValue msg⟩

/-- The full retry loop, main.py line 112: attempt indices start at 0 and
the loop runs at most max_retries iterations. -/
def fetchWithRetry (outcomes : Nat → AttemptOutcome) : LoopTrace :=
  loopStep outcomes 0 max_retries

/-- An attempt outcome that the loop never retries: a ValueError whose
message matches neither pattern, or an exception of another class. -/
def nonRetryable : AttemptOutcome → Prop
  | AttemptOutcome.success _ => False
  | AttemptOutcome.valueError msg => isRetryable msg = false
  | AttemptOutcome.otherError => True

/-- The result of re-raising an attempt outcome out of the loop. -/
def raiseResult : AttemptOutcome → FetchResult
  | AttemptOutcome.success s => FetchResult.ok s
  | AttemptOutcome.valueError msg => FetchResult.errValue msg
  | AttemptOutcome.otherError => FetchResult.errOther

/-- The message of the ValueError raised at main.py line 123 when the RPC
response carries no value or no data. -/
def noDataMsg (pool_address : String) : String :=
  "No data in bonding curve account " ++ pool_address

/-- One iteration body of the fetch loop, main.py lines 113 to 143. The RPC
response value is modelled as an optional byte payload: absence of a value,
or an empty payload, raises the no-data ValueError of line 123; a
discriminator mismatch raises the ValueError of line 72; a truncated
payload raises a construct stream error, which is not a ValueError; a
successful decode returns the snapshot derived at lines 129 to 135. -/
def attemptBody (TOKEN_DECIMALS LAMPORTS_PER_SOL : Nat) (pool_address : String)
    (value : Option (List Nat)) : AttemptOutcome :=
  match value with
  | none => AttemptOutcome.valueError (noDataMsg pool_address)
  | some data =>
    if data.length = 0 then AttemptOutcome.valueError (noDataMsg pool_address)
    else
      match decode data with
      | Except.error DecodeError.invalidDiscriminator =>
        AttemptOutcome.valueError "Invalid curve state discriminator"
      | Except.error DecodeError.truncatedPayload => AttemptOutcome.otherError
      | Except.ok s => AttemptOutcome.success (derive TOKEN_DECIMALS LAMPORTS_PER_SOL s)

/-- The address reconciliation result of on_new_token: whether the mismatch
warning of main.py line 106 fires, and which address the fetch at lines 117
to 119 uses. -/
structure AddressCheck where
  mismatchWarning : Bool
  fetch_address : String
deriving DecidableEq

/-- Address reconciliation in on_new_token, main.py lines 99 to 119: the
pool address is derived from the mint, compared textually with the address
reported by the event, and the derived address is the one used for the
fetch. -/
def reconcileAddress (derive_pool_address : String → String)
    (bonding_curve mint : String) : AddressCheck :=
  let pool_address := derive_pool_address mint
  { mismatchWarning := bonding_curve != pool_address
    fetch_address := pool_address }

/-! Helper lemmas about the byte readers and parsers. -/

theorem discriminator_length : BONDING_CURVE_DISCRIMINATOR.length = 8 := rfl

theorem readLE_of_le (n : Nat) : ∀ l : List Nat, n ≤ l.length →
    ∃ v, readLE n l = some (v, l.drop n) := by
  induction n with
  | zero => exact fun l _ => ⟨0, rfl⟩
  | succ n ih =>
    intro l hl
    match l with
    | [] => simp at hl
    | b :: l =>
      obtain ⟨v, hv⟩ := ih l (by simp at hl; omega)
      exact ⟨b + 256 * v, by simp [readLE, hv]⟩

theorem parseV1_of_le (l : List Nat) (h : 41 ≤ l.length) :
    ∃ s, parseV1 l = some s ∧ s.creator = none := by
  obtain ⟨v1, h1⟩ := readLE_of_le 8 l (by omega)
  obtain ⟨v2, h2⟩ := readLE_of_le 8 (l.drop 8) (by simp; omega)
  obtain ⟨v3, h3⟩ := readLE_of_le 8 ((l.drop 8).drop 8) (by simp; omega)
  obtain ⟨v4, h4⟩ := readLE_of_le 8 (((l.drop 8).drop 8).drop 8) (by simp; omega)
  obtain ⟨v5, h5⟩ := readLE_of_le 8 ((((l.drop 8).drop 8).drop 8).drop 8) (by simp; omega)
  obtain ⟨v6, h6⟩ := readLE_of_le 1 (((((l.drop 8).drop 8).drop 8).drop 8).drop 8)
    (by simp; omega)
  exact ⟨⟨v1, v2, v3, v4, v5, v6 != 0, none⟩,
    by simp only [parseV1, Option.bind_eq_bind', Option.pure_def, h1, Option.some_bind',
      h2, h3, h4, h5, h6], rfl⟩

theorem parseV1_creator (l : List Nat) (s : BondingCurveState)
    (h : parseV1 l = some s) : s.creator = none := by
  simp only [parseV1, Option.bind_eq_bind', Option.pure_def, Option.bind_eq_some'] at h
  obtain ⟨⟨v1, l1⟩, -, ⟨v2, l2⟩, -, ⟨v3, l3⟩, -, ⟨v4, l4⟩, -, ⟨v5, l5⟩, -, ⟨v6, l6⟩, -, hs⟩ := h
  injection hs with hrec
  subst hrec
  rfl

theorem parseV2_of_le (l : List Nat) (h : 73 ≤ l.length) :
    ∃ s c, parseV2 l = some s ∧ s.creator = some c ∧ c.length = 32 := by
  obtain ⟨v1, h1⟩ := readLE_of_le 8 l (by omega)
  obtain ⟨v2, h2⟩ := readLE_of_le 8 (l.drop 8) (by simp; omega)
  obtain ⟨v3, h3⟩ := readLE_of_le 8 ((l.drop 8).drop 8) (by simp; omega)
  obtain ⟨v4, h4⟩ := readLE_of_le 8 (((l.drop 8).drop 8).drop 8) (by simp; omega)
  obtain ⟨v5, h5⟩ := readLE_of_le 8 ((((l.drop 8).drop 8).drop 8).drop 8) (by simp; omega)
  obtain ⟨v6, h6⟩ := readLE_of_le 1 (((((l.drop 8).drop 8).drop 8).drop 8).drop 8)
    (by simp; omega)
  have h7 : readBytes 32 ((((((l.drop 8).drop 8).drop 8).drop 8).drop 8).drop 1)
      = some (((((((l.drop 8).drop 8).drop 8).drop 8).drop 8).drop 1).take 32,
              ((((((l.drop 8).drop 8).drop 8).drop 8).drop 8).drop 1).drop 32) := by
    simp [readBytes]; omega
  refine ⟨⟨v1, v2, v3, v4, v5, v6 != 0,
      some (((((((l.drop 8).drop 8).drop 8).drop 8).drop 8).drop 1).take 32)⟩,
    ((((((l.drop 8).drop 8).drop 8).drop 8).drop 8).drop 1).take 32, ?_, rfl, ?_⟩
  · simp only [parseV2, Option.bind_eq_bind', Option.pure_def, h1, Option.some_bind',
      h2, h3, h4, h5, h6, h7]
  · simp
    omega

/-! Helper lemmas for single steps of the fetch loop. -/

theorem loopStep_success (outcomes : Nat → AttemptOutcome) (attempt remaining : Nat)
    (s : PriceSnapshot) (h : outcomes attempt = AttemptOutcome.success s) :
    loopStep outcomes attempt (remaining + 1) = ⟨1, [], FetchResult.ok s⟩ := by
  simp [loopStep, h]

theorem loopStep_other (outcomes : Nat → AttemptOutcome) (attempt remaining : Nat)
    (h : outcomes attempt = AttemptOutcome.otherError) :
    loopStep outcomes attempt (remaining + 1) = ⟨1, [], FetchResult.errOther⟩ := by
  simp [loopStep, h]

theorem loopStep_retry (outcomes : Nat → AttemptOutcome) (attempt remaining : Nat)
    (msg : String) (h : outcomes attempt = AttemptOutcome.valueError msg)
    (hr : isRetryable msg = true) (hlt : attempt < max_retries - 1) :
    loopStep outcomes attempt (remaining + 1)
      = ⟨(loopStep outcomes (attempt + 1) remaining).attempts + 1,
         retry_delay :: (loopStep outcomes (attempt + 1) remaining).sleeps,
         (loopStep outcomes (attempt + 1) remaining).result⟩ := by
  simp only [loopStep, h]
  rw [if_pos ⟨hr, hlt⟩]

theorem loopStep_raise (outcomes : Nat → AttemptOutcome) (attempt remaining : Nat)
    (msg : String) (h : outcomes attempt = AttemptOutcome.valueError msg)
    (hstop : ¬(isRetryable msg = true ∧ attempt < max_retries - 1)) :
    loopStep outcomes attempt (remaining + 1) = ⟨1, [], FetchResult.errValue msg⟩ := by
  simp only [loopStep, h]
  rw [if_neg hstop]

/-! Claim theorems. -/

/-- A pool address as it appears in the no-data message: a base58 public
key string, which contains neither retryable pattern. -/
def pool_address_sample : String := "6EF8rrecthR5Dkzon8Nwu78hRvfCKubJ14M5uBEwF6P"

/-- Claim C1: the claim states that a remote-read response carrying no
value or no data is classified as NotYetAvailable and retried. The code
instead raises a ValueError whose message, produced at main.py line 123,
contains neither of the substrings checked at line 150, so the error is
re-raised on the first attempt with no sleep and no retry: the loop makes
exactly one attempt and propagates the error. This theorem evaluates the
code at the failing input, a response with no value. -/
theorem no_data_response_not_retried :
    attemptBody 6 1000000000 pool_address_sample none
      = AttemptOutcome.valueError (noDataMsg pool_address_sample)
    ∧ isRetryable (noDataMsg pool_address_sample) = false
    ∧ fetchWithRetry (fun _ => attemptBody 6 1000000000 pool_address_sample none)
      = ⟨1, [], FetchResult.errValue (noDataMsg pool_address_sample)⟩ :=
  ⟨rfl, by decide, by decide⟩

/-- A payload of exactly 150 bytes with a valid discriminator. -/
def sample150 : List Nat := BONDING_CURVE_DISCRIMINATOR ++ List.replicate 142 0

/-- Claim C2, counterexample: the claim states that layout V2 is selected
exactly when the total payload length is at least 150 bytes. On a payload
of exactly 150 bytes with a valid discriminator, the length check at
main.py line 75 is strict, so layout V1 is selected and no creator field
is read, refuting the claim at the boundary. -/
theorem length_150_payload_selects_v1 :
    sample150.length = 150
    ∧ sample150.take 8 = BONDING_CURVE_DISCRIMINATOR
    ∧ selectLayout sample150 = Layout.v1
    ∧ decode sample150 = Except.ok ⟨0, 0, 0, 0, 0, false, none⟩ :=
  ⟨by decide, by decide, by decide, rfl⟩

/-- Claim C2, amended: for every payload with a valid discriminator, the
decoder selects layout V2, with the trailing 32-byte creator field, exactly
when the total payload length exceeds 150 bytes, and layout V1, never
reading a creator field, when the total length is at most 150 bytes. -/
theorem layout_threshold (data : List Nat)
    (hdisc : data.take 8 = BONDING_CURVE_DISCRIMINATOR) :
    (selectLayout data = Layout.v2 ↔ 150 < data.length)
    ∧ (150 < data.length →
        ∃ s c, decode data = Except.ok s ∧ s.creator = some c ∧ c.length = 32)
    ∧ (data.length ≤ 150 → ∀ s, decode data = Except.ok s → s.creator = none) := by
  have hdec : decode data
      = match parseWith (selectLayout data) (data.drop 8) with
        | some s => Except.ok s
        | none => Except.error DecodeError.truncatedPayload := by
    simp only [decode]
    rw [if_neg (by simp [hdisc])]
  refine ⟨?_, ?_, ?_⟩
  · by_cases hlen : 150 < data.length
    · simp [selectLayout, hlen]
    · simp [selectLayout, hlen]
  · intro hlen
    have hsel : selectLayout data = Layout.v2 := by
      simp only [selectLayout]
      rw [if_pos hlen]
    obtain ⟨s, c, hp, hc, hc32⟩ := parseV2_of_le (data.drop 8) (by simp; omega)
    refine ⟨s, c, ?_, hc, hc32⟩
    rw [hdec, hsel]
    simp [parseWith, hp]
  · intro hle s hs
    have hsel : selectLayout data = Layout.v1 := by
      simp only [selectLayout]
      rw [if_neg (by omega)]
    rw [hdec, hsel] at hs
    simp only [parseWith] at hs
    cases hp : parseV1 (data.drop 8) with
    | none => rw [hp] at hs; cases hs
    | some t =>
      rw [hp] at hs
      injection hs with hts
      exact hts ▸ parseV1_creator _ _ hp

/-- A payload of 151 bytes with a valid discriminator. -/
def sample151 : List Nat := BONDING_CURVE_DISCRIMINATOR ++ List.replicate 143 7

/-- Witness for the amended claim C2, at a concrete 151-byte payload. -/
theorem layout_threshold_witness :
    sample151.take 8 = BONDING_CURVE_DISCRIMINATOR
    ∧ ((selectLayout sample151 = Layout.v2 ↔ 150 < sample151.length)
      ∧ (150 < sample151.length →
          ∃ s c, decode sample151 = Except.ok s ∧ s.creator = some c ∧ c.length = 32)
      ∧ (sample151.length ≤ 150 → ∀ s, decode sample151 = Except.ok s → s.creator = none)) :=
  ⟨by decide, layout_threshold sample151 (by decide)⟩

/-- Claim C3: when every attempt fails with a ValueError whose message
matches a retryable pattern, the loop makes exactly 5 attempts, sleeps
exactly 4 times for retry_delay seconds, and propagates the last error; a
sixth attempt never happens. -/
theorem retry_exhaustion (outcomes : Nat → AttemptOutcome) (msg : Nat → String)
    (h : ∀ i, i < max_retries → outcomes i = AttemptOutcome.valueError (msg i))
    (hr : ∀ i, i < max_retries → isRetryable (msg i) = true) :
    fetchWithRetry outcomes
      = ⟨5, List.replicate 4 retry_delay, FetchResult.errValue (msg 4)⟩ := by
  have e4 : loopStep outcomes 4 1 = ⟨1, [], FetchResult.errValue (msg 4)⟩ :=
    loopStep_raise outcomes 4 0 (msg 4) (h 4 (by decide))
      (by rintro ⟨-, hx⟩; exact absurd hx (by decide))
  have e3 : loopStep outcomes 3 2 = ⟨2, [retry_delay], FetchResult.errValue (msg 4)⟩ := by
    simp only [loopStep_retry outcomes 3 1 (msg 3) (h 3 (by decide)) (hr 3 (by decide))
      (by decide), e4]
  have e2 : loopStep outcomes 2 3
      = ⟨3, [retry_delay, retry_delay], FetchResult.errValue (msg 4)⟩ := by
    simp only [loopStep_retry outcomes 2 2 (msg 2) (h 2 (by decide)) (hr 2 (by decide))
      (by decide), e3]
  have e1 : loopStep outcomes 1 4
      = ⟨4, [retry_delay, retry_delay, retry_delay], FetchResult.errValue (msg 4)⟩ := by
    simp only [loopStep_retry outcomes 1 3 (msg 1) (h 1 (by decide)) (hr 1 (by decide))
      (by decide), e2]
  have e0 : loopStep outcomes 0 5
      = ⟨5, [retry_delay, retry_delay, retry_delay, retry_delay],
          FetchResult.errValue (msg 4)⟩ := by
    simp only [loopStep_retry outcomes 0 4 (msg 0) (h 0 (by decide)) (hr 0 (by decide))
      (by decide), e1]
  rw [fetchWithRetry, show max_retries = 5 from rfl, e0]
  rfl

/-- Witness for claim C3: a read that always reports the account as not
found exhausts all five attempts with four sleeps. -/
theorem retry_exhaustion_witness :
    fetchWithRetry (fun _ => AttemptOutcome.valueError "Account not found")
      = ⟨5, List.replicate 4 retry_delay, FetchResult.errValue "Account not found"⟩ :=
  retry_exhaustion (fun _ => AttemptOutcome.valueError "Account not found")
    (fun _ => "Account not found") (fun _ _ => rfl)
    (fun _ _ => show isRetryable "Account not found" = true from by decide)

/-- Claim C4: a non-retryable error on the first attempt, either a
ValueError whose message matches neither pattern or an exception of
another class, terminates the loop after exactly 1 attempt with no sleep,
propagating the error. -/
theorem fatal_first_attempt (outcomes : Nat → AttemptOutcome)
    (h : nonRetryable (outcomes 0)) :
    fetchWithRetry outcomes = ⟨1, [], raiseResult (outcomes 0)⟩ := by
  cases ho : outcomes 0 with
  | success s => rw [ho] at h; exact absurd h (by simp [nonRetryable])
  | valueError m =>
    rw [ho] at h
    rw [fetchWithRetry, show max_retries = 4 + 1 from rfl,
      loopStep_raise outcomes 0 4 m ho (by rintro ⟨hx, -⟩; rw [h] at hx; cases hx)]
    rfl
  | otherError =>
    rw [fetchWithRetry, show max_retries = 4 + 1 from rfl,
      loopStep_other outcomes 0 4 ho]
    rfl

/-- Witness for claim C4: a first attempt failing with the discriminator
ValueError of main.py line 72, whose message matches neither pattern, is
propagated after one attempt. -/
theorem fatal_first_attempt_witness :
    fetchWithRetry (fun _ => AttemptOutcome.valueError "Invalid curve state discriminator")
      = ⟨1, [], FetchResult.errValue "Invalid curve state discriminator"⟩ :=
  fatal_first_attempt (fun _ => AttemptOutcome.valueError "Invalid curve state discriminator")
    (show isRetryable "Invalid curve state discriminator" = false from by decide)

/-- Claim C5: when the first two attempts fail with retryable errors and
the third attempt succeeds, the loop makes exactly 3 attempts with 2
sleeps and returns the snapshot of the third attempt, making no further
attempts. -/
theorem early_success (outcomes : Nat → AttemptOutcome) (m0 m1 : String)
    (s : PriceSnapshot)
    (h0 : outcomes 0 = AttemptOutcome.valueError m0) (hr0 : isRetryable m0 = true)
    (h1 : outcomes 1 = AttemptOutcome.valueError m1) (hr1 : isRetryable m1 = true)
    (h2 : outcomes 2 = AttemptOutcome.success s) :
    fetchWithRetry outcomes = ⟨3, [retry_delay, retry_delay], FetchResult.ok s⟩ := by
  have e2 : loopStep outcomes 2 3 = ⟨1, [], FetchResult.ok s⟩ :=
    loopStep_success outcomes 2 2 s h2
  have e1 : loopStep outcomes 1 4 = ⟨2, [retry_delay], FetchResult.ok s⟩ := by
    simp only [loopStep_retry outcomes 1 3 m1 h1 hr1 (by decide), e2]
  have e0 : loopStep outcomes 0 5 = ⟨3, [retry_delay, retry_delay], FetchResult.ok s⟩ := by
    simp only [loopStep_retry outcomes 0 4 m0 h0 hr0 (by decide), e1]
  rw [fetchWithRetry, show max_retries = 5 from rfl, e0]

/-- Witness for claim C5: two account-not-found failures followed by a
successful decode return the snapshot of the third attempt. -/
theorem early_success_witness :
    fetchWithRetry (fun i => if i < 2 then AttemptOutcome.valueError "Account not found"
        else AttemptOutcome.success ⟨0, 0, 0⟩)
      = ⟨3, [retry_delay, retry_delay], FetchResult.ok ⟨0, 0, 0⟩⟩ :=
  early_success (fun i => if i < 2 then AttemptOutcome.valueError "Account not found"
      else AttemptOutcome.success ⟨0, 0, 0⟩)
    "Account not found" "Account not found" ⟨0, 0, 0⟩
    rfl (by decide) rfl (by decide) rfl

/-- Claim C6: any payload whose first 8 bytes differ from the little-endian
encoding of the discriminator constant is rejected with the invalid
discriminator error, before any layout selection or field parsing. -/
theorem invalid_discriminator_rejected (data : List Nat)
    (h : data.take 8 ≠ BONDING_CURVE_DISCRIMINATOR) :
    decode data = Except.error DecodeError.invalidDiscriminator := by
  simp only [decode]
  rw [if_pos h]

/-- Witness for claim C6: a long all-zero payload is rejected. -/
theorem invalid_discriminator_rejected_witness :
    List.take 8 (List.replicate 49 0) ≠ BONDING_CURVE_DISCRIMINATOR
    ∧ decode (List.replicate 49 0) = Except.error DecodeError.invalidDiscriminator :=
  ⟨by decide, invalid_discriminator_rejected (List.replicate 49 0) (by decide)⟩

/-- Claim C7: a decoded record with zero virtual token reserves yields an
initial price of zero, whatever the other fields hold; this is a defined
result, not an error. -/
theorem derive_zero_reserves (TOKEN_DECIMALS LAMPORTS_PER_SOL : Nat)
    (s : BondingCurveState) (h : s.virtual_token_reserves = 0) :
    (derive TOKEN_DECIMALS LAMPORTS_PER_SOL s).initial_price = 0 := by
  simp [derive, h]

/-- Witness for claim C7, at a record with zero virtual token reserves and
nonzero remaining fields. -/
theorem derive_zero_reserves_witness :
    (⟨0, 30000000000, 800000000, 25000000000, 1000000000, true, none⟩ :
        BondingCurveState).virtual_token_reserves = 0
    ∧ (derive 6 1000000000
        ⟨0, 30000000000, 800000000, 25000000000, 1000000000, true, none⟩).initial_price
      = 0 :=
  ⟨rfl, derive_zero_reserves 6 1000000000
    ⟨0, 30000000000, 800000000, 25000000000, 1000000000, true, none⟩ rfl⟩

/-- Claim C8: for nonzero virtual token reserves the initial price is the
ratio of virtual SOL to virtual token reserves, scaled by ten to the token
decimals and divided by the lamports-per-SOL constant, and the snapshot
reserves are copies of the virtual, not the real, reserve fields. -/
theorem derive_price_formula (TOKEN_DECIMALS LAMPORTS_PER_SOL : Nat)
    (s : BondingCurveState) (h : 0 < s.virtual_token_reserves) :
    (derive TOKEN_DECIMALS LAMPORTS_PER_SOL s).initial_price
      = (s.virtual_sol_reserves : ℚ) / (s.virtual_token_reserves : ℚ)
        * (10 : ℚ) ^ TOKEN_DECIMALS / (LAMPORTS_PER_SOL : ℚ)
    ∧ (derive TOKEN_DECIMALS LAMPORTS_PER_SOL s).token_reserves = s.virtual_token_reserves
    ∧ (derive TOKEN_DECIMALS LAMPORTS_PER_SOL s).sol_reserves = s.virtual_sol_reserves := by
  simp [derive, h]

/-- Witness for claim C8, at the worked example of the specification. -/
theorem derive_price_formula_witness :
    0 < (⟨1000000000, 30000000000, 800000000, 25000000000, 1000000000, false, none⟩ :
        BondingCurveState).virtual_token_reserves
    ∧ ((derive 6 1000000000
          ⟨1000000000, 30000000000, 800000000, 25000000000, 1000000000, false, none⟩).initial_price
        = ((30000000000 : ℚ) / (1000000000 : ℚ) * (10 : ℚ) ^ 6 / (1000000000 : ℚ))
      ∧ (derive 6 1000000000
          ⟨1000000000, 30000000000, 800000000, 25000000000, 1000000000, false, none⟩).token_reserves
        = 1000000000
      ∧ (derive 6 1000000000
          ⟨1000000000, 30000000000, 800000000, 25000000000, 1000000000, false, none⟩).sol_reserves
        = 30000000000) :=
  ⟨by decide, derive_price_formula 6 1000000000
    ⟨1000000000, 30000000000, 800000000, 25000000000, 1000000000, false, none⟩ (by decide)⟩

/-- Claim C9: the handler always fetches the derived pool address, and the
mismatch warning fires exactly when the reported bonding curve address
differs textually from the derived one; the reported address is never
fetched. -/
theorem derived_address_authoritative (derive_pool_address : String → String)
    (bonding_curve mint : String) :
    (reconcileAddress derive_pool_address bonding_curve mint).fetch_address
      = derive_pool_address mint
    ∧ ((reconcileAddress derive_pool_address bonding_curve mint).mismatchWarning = true
        ↔ bonding_curve ≠ derive_pool_address mint) := by
  refine ⟨rfl, ?_⟩
  simp [reconcileAddress, bne_iff_ne]

/-- Claim C10: a payload shorter than 8 bytes is rejected with the invalid
discriminator error: the Python slice of the first 8 bytes of a shorter
input is the whole input, which cannot equal the 8-byte discriminator, so
the comparison is total and decode is well defined on such inputs. -/
theorem short_payload_rejected (data : List Nat) (h : data.length < 8) :
    decode data = Except.error DecodeError.invalidDiscriminator := by
  have hne : data.take 8 ≠ BONDING_CURVE_DISCRIMINATOR := by
    intro he
    have hl := congrArg List.length he
    simp only [List.length_take, discriminator_length] at hl
    omega
  simp only [decode]
  rw [if_pos hne]

/-- Witness for claim C10: a 3-byte payload is rejected. -/
theorem short_payload_rejected_witness :
    ([1, 2, 3] : List Nat).length < 8
    ∧ decode [1, 2, 3] = Except.error DecodeError.invalidDiscriminator :=
  ⟨by decide, short_payload_rejected [1, 2, 3] (by decide)⟩

end Aurabot
